import Mathlib

/-
  Verification development for the RemMux remote-shell server
  (src/server/src/Server.cpp).  The definitions below are a shallow
  embedding of the command-handling core: ambient dependencies of the
  C++ code (the filesystem, the HOME environment variable, the process
  current working directory) are passed as explicit parameters, and the
  per-client registry std::map<int, path> clientPaths is an association
  list with unique keys.  Filesystem paths are represented as their
  component lists relative to the root, so [] is the root "/" and
  ["a", "b"] is "/a/b".
-/

namespace RemMux

/-! ## String helpers (byte strings are ASCII in all inputs considered) -/

/-- Does the second list start with the first one?  Used to express the
C++ std::string::find substring search. -/
def leadMatch : List Char → List Char → Bool
  | [], _ => true
  | _ :: _, [] => false
  | a :: as, b :: bs => a = b && leadMatch as bs

/-- Substring search: true when the needle occurs somewhere in the hay,
matching the semantics of std::string::find(needle) != npos. -/
def subSearch (needle : List Char) : List Char → Bool
  | [] => leadMatch needle []
  | c :: rest => leadMatch needle (c :: rest) || subSearch needle rest

/-- hay.find(needle) != npos in C++. -/
def containsSub (hay needle : String) : Bool :=
  subSearch needle.toList hay.toList

/-- std::string::substr(n) (total variant; callers in the embedding only
use it where the C++ index is in range). -/
def strDrop (s : String) (n : Nat) : String := ⟨s.toList.drop n⟩

/-- std::string::substr(0, n). -/
def strTake (s : String) (n : Nat) : String := ⟨s.toList.take n⟩

def isWS (c : Char) : Bool := c = ' ' || c = '\t'

/-- The two in-place erase calls of Server::handleChangeDirectory:
drop leading and trailing spaces and tabs. -/
def trimWS (s : String) : String :=
  ⟨((s.toList.dropWhile isWS).reverse.dropWhile isWS).reverse⟩

/-! ## Filesystem model -/

/-- One existing filesystem object: its absolute path as a component
list, whether it is a directory, its content (empty for directories),
and whether the server user has read and execute permission on it. -/
structure FSNode where
  comps : List String
  isDir : Bool
  content : String
  readExec : Bool
deriving DecidableEq

/-- A filesystem: the finite list of existing objects. -/
structure FS where
  nodes : List FSNode
deriving DecidableEq

def FS.existsPath (fs : FS) (p : List String) : Bool :=
  fs.nodes.any (fun n => n.comps == p)

def FS.isDirPath (fs : FS) (p : List String) : Bool :=
  match fs.nodes.find? (fun n => n.comps == p) with
  | some n => n.isDir
  | none => false

def FS.readExecPath (fs : FS) (p : List String) : Bool :=
  match fs.nodes.find? (fun n => n.comps == p) with
  | some n => n.readExec
  | none => false

def FS.contentOf (fs : FS) (p : List String) : String :=
  match fs.nodes.find? (fun n => n.comps == p) with
  | some n => n.content
  | none => ""

/-- Creation of an empty regular file (std::ofstream in
Server::handleNanoCommand). -/
def FS.createFile (fs : FS) (p : List String) : FS :=
  ⟨fs.nodes ++ [⟨p, false, "", true⟩]⟩

/-! ## Paths -/

/-- A not-yet-canonicalized std::filesystem::path: absolute or relative,
with its component list. -/
structure PrePath where
  isAbs : Bool
  comps : List String
deriving DecidableEq

/-- Decomposition performed by the std::filesystem::path constructor:
split on the separator; redundant separators contribute no component. -/
def splitComps (s : String) : List String :=
  ((s.toList.splitOn '/').map (fun cs => (⟨cs⟩ : String))).filter (fun c => ¬ c = "")

def startsSlash (s : String) : Bool :=
  match s.toList with
  | c :: _ => c = '/'
  | [] => false

/-- path(s) in C++. -/
def pathOfString (s : String) : PrePath :=
  ⟨startsSlash s, splitComps s⟩

/-- path::operator/ : appending an absolute right-hand side replaces the
left-hand side entirely. -/
def joinP (a : PrePath) (s : String) : PrePath :=
  if startsSlash s then pathOfString s else ⟨a.isAbs, a.comps ++ splitComps s⟩

/-- path::string() for a canonical absolute path. -/
def pathToString (p : List String) : String :=
  "/" ++ String.intercalate "/" p

/-- Collapse "." and ".." components as canonicalization does ("#.." at
the root stays at the root). -/
def normalizeComps (cs : List String) : List String :=
  cs.foldl (fun acc c => if c = "." then acc
                         else if c = ".." then acc.dropLast
                         else acc ++ [c]) []

/-- std::filesystem::canonical on an absolute path: collapse the dot
components, then fail (filesystem_error) unless the result exists.  The
model filesystem has no symlinks. -/
def canonicalM (fs : FS) (p : List String) : Except Unit (List String) :=
  let n := normalizeComps p
  if fs.existsPath n then Except.ok n else Except.error ()

/-- std::filesystem::canonical on a possibly relative path: a relative
path is resolved against the ambient process working directory. -/
def canonicalPre (fs : FS) (ambient : List String) (p : PrePath) : Except Unit (List String) :=
  canonicalM fs (if p.isAbs then p.comps else ambient ++ p.comps)

/-- The C++ check rawPath[0] == char 0x7e && rawPath.length() > 1 &&
rawPath[1] == the separator. -/
def isTildeSlash (s : String) : Bool :=
  match s.toList with
  | '~' :: '/' :: _ => true
  | _ => false

/-- The HOME lookup of Server::resolvePath: home ? home : "/". -/
def homeString (home : Option String) : String :=
  match home with
  | some h => h
  | none => "/"

/-! ## Server::resolvePath -/

/-- The branch cascade of Server::resolvePath before the final
canonical call, in source order.  home models std::getenv("HOME"). -/
def resolvePre (home : Option String) (currentPath : List String) (rawPath : String) : PrePath :=
  if rawPath = "" ∨ rawPath = "~" then
    pathOfString (homeString home)
  else if isTildeSlash rawPath then
    match home with
    | some h => joinP (pathOfString h) (strDrop rawPath 2)
    | none => pathOfString (strDrop rawPath 2)
  else if rawPath = "." then ⟨true, currentPath⟩
  else if rawPath = ".." then ⟨true, currentPath.dropLast⟩
  else if startsSlash rawPath then pathOfString rawPath
  else ⟨true, currentPath ++ splitComps rawPath⟩

/-- Server::resolvePath: compute the target then canonicalize; a
canonicalization failure is the filesystem_error the C++ code lets
escape to its caller. -/
def resolvePath (fs : FS) (home : Option String) (ambient : List String)
    (currentPath : List String) (rawPath : String) : Except Unit (List String) :=
  canonicalPre fs ambient (resolvePre home currentPath rawPath)

/-- Server::validateDirectory: exists, is a directory, read and execute
permission, checked in that order, false on any failure. -/
def validateDirectory (fs : FS) (p : List String) : Bool :=
  fs.existsPath p && fs.isDirPath p && fs.readExecPath p

/-! ## The session registry (std::map<int, path> clientPaths) -/

/-- Lookup of a key in the registry. -/
def regLookup : List (Int × List String) → Int → Option (List String)
  | [], _ => none
  | (k, v) :: rest, fd => if k = fd then some v else regLookup rest fd

/-- clientPaths[fd] = p: overwrite the entry when the key is present,
insert it otherwise (std::map::operator[] followed by assignment). -/
def regSet : List (Int × List String) → Int → List String → List (Int × List String)
  | [], fd, p => [(fd, p)]
  | (k, v) :: rest, fd, p => if k = fd then (fd, p) :: rest else (k, v) :: regSet rest fd p

/-! ## Server::handleChangeDirectory -/

/-- Server::handleChangeDirectory, as a function from the filesystem,
the HOME variable, the ambient process working directory, the registry
and the command to the new registry and the response text sent to the
client.  The parameter what carries the what() text of the
filesystem_error raised when canonicalization fails; the registry entry
default-created by clientPaths[clientSocket] when the key is absent is
the empty path, modelled as []. -/
def handleChangeDirectory (fs : FS) (home : Option String) (ambient : List String)
    (what : String) (r : List (Int × List String)) (fd : Int) (command : String) :
    (List (Int × List String)) × String :=
  let r1 := if (regLookup r fd).isSome then r else regSet r fd []
  let base := (regLookup r fd).getD []
  let raw := trimWS (strDrop command 2)
  match resolvePath fs home ambient base (if raw = "" then "~" else raw) with
  | Except.error _ => (r1, "Filesystem error: " ++ what)
  | Except.ok target =>
    if validateDirectory fs target then
      (regSet r1 fd target, "\n" ++ pathToString target)
    else
      (r1, "Invalid directory: " ++ raw)

/-! ## Server::executeCommand -/

def singleQuoteStr : String := (Char.ofNat 39).toString

/-- The first argument handed to popen: the bash invocation with the
command text spliced in between single quotes, a 2>&1 redirection
merging stderr into stdout. -/
def bashCmdLine (cmd : String) : String :=
  "/bin/bash -c " ++ singleQuoteStr ++ cmd ++ " 2>&1" ++ singleQuoteStr

/-- What the executor decides to do before any subprocess exists:
either refuse with a fixed message (the sudo filter) or spawn the given
command line through popen. -/
inductive ExecAction where
  | refuse (msg : String)
  | spawn (cmdline : String)
deriving DecidableEq

/-- The pre-spawn part of Server::executeCommand: the sudo substring
filter, then the popen command line. -/
def executeCommandAction (cmd : String) : ExecAction :=
  if containsSub cmd "sudo" then ExecAction.refuse "Error: sudo commands are not allowed"
  else ExecAction.spawn (bashCmdLine cmd)

/-- The post-spawn part of Server::executeCommand: given the exit
status from pclose and the captured merged output, the text returned to
the caller.  The C++ hasOutput flag is equivalent to the captured text
being nonempty for streams without NUL bytes. -/
def executeCommandResult (cmd : String) (status : Int) (output : String) : String :=
  if ¬ status = 0 ∧ output = "" then "Error: Unknown command: " ++ cmd
  else if output = "" then "Warn: Command executed but produced no output."
  else output

/-! ## Server::handleNanoCommand -/

/-- The message of the catch-all branch of Server::handleNanoCommand. -/
def nanoIOErrorResponse : String := "Error: Cannot open file"

/-- Server::handleNanoCommand: the filename is the text after
"nano " (substr(5), which raises out_of_range — modelled as none —
when the command is shorter than five characters); the file path is the
ambient process working directory joined with the filename; a file that
does not exist is created empty and the sentinel is returned, otherwise
the content is read and an empty content also yields the sentinel. -/
def handleNanoCommand (fs : FS) (ambient : List String) (command : String) :
    Option (FS × String) :=
  if command.toList.length < 5 then none
  else
    let filename := strDrop command 5
    let filePath := (joinP ⟨true, ambient⟩ filename).comps
    if fs.existsPath filePath then
      some (fs, if fs.contentOf filePath = "" then "NEW_FILE" else fs.contentOf filePath)
    else
      some (fs.createFile filePath, "NEW_FILE")

/-! ## Server::processCommand and Server::handleClient -/

/-- The command classes of the dispatch in Server::processCommand:
substr(0,2) == "cd" first, then substr(0,4) == "nano", otherwise the
generic executor. -/
inductive Dispatch where
  | cd | nano | exec
deriving DecidableEq

def classifyCommand (c : String) : Dispatch :=
  if strTake c 2 = "cd" then Dispatch.cd
  else if strTake c 4 = "nano" then Dispatch.nano
  else Dispatch.exec

/-- The mutable state the server process shares among all sessions: the
registry and the ambient process-wide working directory (the one
current_path() reads and current_path(p) writes). -/
structure ServerState where
  registry : List (Int × List String)
  ambientCwd : List String
deriving DecidableEq

/-- The opening statements of Server::processCommand: read the calling
session entry from clientPaths (without taking pathsMutex) and execute
current_path(clientPath), overwriting the process-wide working
directory.  A missing entry is default-created as the empty path, on
which current_path raises; that branch is not modelled, so the result
is none when the key is absent. -/
def processCommandSetCwd (st : ServerState) (fd : Int) : Option ServerState :=
  (regLookup st.registry fd).map (fun p => { st with ambientCwd := p })

/-- Server::cleanedCommand: drop every newline, carriage-return and
backspace character. -/
def cleanedCommand (command : String) : String :=
  ⟨command.toList.filter (fun c => ¬ (c = '\n' ∨ c = '\r' ∨ c = Char.ofNat 8))⟩

/-- One iteration of the receive loop of Server::handleClient: the
received buffer is compared against "exit" verbatim; any other buffer
is handed to processCommand exactly as received (cleanedCommand is
defined in Server.cpp but never invoked). -/
inductive StepResult where
  | exited (farewell : String)
  | dispatched (command : String)
deriving DecidableEq

def handleClientStep (buffer : String) : StepResult :=
  if buffer = "exit" then StepResult.exited "Goodbye!"
  else StepResult.dispatched buffer

/-- The registry entry written by Server::handleClient on accept, under
pathsMutex, before the receive loop starts:
clientPaths[clientSocket] = current_path(). -/
def handleClientInit (r : List (Int × List String)) (fd : Int) (serverCwd : List String) :
    List (Int × List String) :=
  regSet r fd serverCwd

/-- What Server::handleClient does to the registry after its receive
loop ends (exit command, zero-length receive or receive error): it logs
and closes the socket; no erase on clientPaths appears anywhere in
Server.cpp, so the registry is returned unchanged. -/
def handleClientTeardown (r : List (Int × List String)) (_fd : Int) :
    List (Int × List String) :=
  r

/-! ## Registry access sites and their locking -/

/-- One syntactic access to the shared clientPaths structure in
Server.cpp, with the function it occurs in, the operation performed,
and whether a std::lock_guard on pathsMutex is in scope at that
statement. -/
structure RegistryAccessSite where
  functionName : String
  operation : String
  underPathsMutex : Bool
deriving DecidableEq

/-- Every access to clientPaths in Server.cpp, in source order:
the guarded insert in handleClient (line 288), the guarded
lookup-and-update in handleChangeDirectory (line 82), and the unguarded
lookup in processCommand (line 198). -/
def registryAccessSites : List RegistryAccessSite :=
  [⟨"Server::handleChangeDirectory", "lookup and update of clientPaths[clientSocket]", true⟩,
   ⟨"Server::processCommand", "lookup of clientPaths[clientSocket]", false⟩,
   ⟨"Server::handleClient", "insert of the initial clientPaths[clientSocket] entry", true⟩]

/-! ## Definitions taken from the words of the specification, for the
refinement comparisons -/

/-- Modelled from the words of claim C5: the command line the claim
says is handed to the shell, with the command and the redirection
wrapped in double quotes. -/
def specShellLine (cmd : String) : String :=
  "/bin/bash -c \"" ++ cmd ++ " 2>&1\""

/-- Modelled from the words of claim C3: its rule for a token that is
none of the empty token, the tilde, dot, dot-dot, or an absolute token
— the base joined with the token, then canonicalized. -/
def specResolveOtherRule (fs : FS) (base : List String) (raw : String) : Except Unit (List String) :=
  canonicalM fs (base ++ splitComps raw)

/-! ## Concrete filesystems used in witnesses and counterexamples -/

/-- Just the root directory. -/
def fsRootOnly : FS := ⟨[⟨[], true, "", true⟩]⟩

/-- Root, a home directory /h, a base /b with a subdirectory /b/sub. -/
def fs3w : FS :=
  ⟨[⟨[], true, "", true⟩, ⟨["h"], true, "", true⟩,
    ⟨["b"], true, "", true⟩, ⟨["b", "sub"], true, "", true⟩]⟩

/-- Root, /h with /h/x, and /b containing a directory literally named
with a tilde, with /b under it an x as well: both readings of the
token exist, so the comparison is between two defined results. -/
def fs3c : FS :=
  ⟨[⟨[], true, "", true⟩, ⟨["h"], true, "", true⟩, ⟨["h", "x"], true, "", true⟩,
    ⟨["b"], true, "", true⟩, ⟨["b", "~"], true, "", true⟩, ⟨["b", "~", "x"], true, "", true⟩]⟩

/-! # Theorems -/

/-! ## Registry helper lemmas -/

theorem regLookup_regSet (r : List (Int × List String)) (fd : Int) (p : List String) :
    regLookup (regSet r fd p) fd = some p := by
  induction r with
  | nil => simp [regSet, regLookup]
  | cons e rest ih =>
    obtain ⟨k, v⟩ := e
    by_cases h : k = fd
    · simp [regSet, regLookup, h]
    · simp [regSet, regLookup, h, ih]

/-! ## Claim C1 -/

/-- Claim C1: the claim states that command handling never mutates the
process-wide ambient working directory once more than one session is
active.  Evaluated at the failing input — sessions 4 (directory /a)
and 5 (directory /b) both registered, ambient directory /b — the
prologue of Server::processCommand for session 4 (current_path applied
to the stored client path) overwrites the ambient working directory
with /a, leaving the stored entries untouched: the directory reaches
the subprocess implicitly through shared process state, not as an
explicit argument. -/
theorem claim_C1_processCommand_mutates_ambient_cwd :
    processCommandSetCwd ⟨[(4, ["a"]), (5, ["b"])], ["b"]⟩ 4
      = some ⟨[(4, ["a"]), (5, ["b"])], ["a"]⟩
    ∧ ¬ (["a"] : List String) = ["b"] :=
  ⟨rfl, by decide⟩

/-! ## Claim C2 -/

/-- Claim C2: the claim states that every failure response of the cd
handler contains the substring "Error" or "Invalid directory".
Evaluated at the failing input — a cd to a path on which
canonicalization raises a filesystem_error whose what() text is the
libstdc++ wording — the handler leaves the registry unchanged but
replies with a message that contains neither substring
(case-sensitively), which the client scan in ClientGUI.cpp treats as
success. -/
theorem claim_C2_exception_response_evades_scan :
    handleChangeDirectory fsRootOnly none [] "cannot make canonical path" [(4, [])] 4 "cd /nope"
      = ([(4, [])], "Filesystem error: cannot make canonical path")
    ∧ containsSub "Filesystem error: cannot make canonical path" "Error" = false
    ∧ containsSub "Filesystem error: cannot make canonical path" "Invalid directory" = false :=
  ⟨rfl, by decide, by decide⟩

/-! ## Claim C4 -/

/-- Claim C4: every command containing the literal case-sensitive
substring "sudo" is refused with the fixed message and no subprocess
is spawned, while strings differing only in case, such as "SUDO",
pass the filter and reach the spawn path. -/
theorem claim_C4_sudo_filter (cmd : String) (h : containsSub cmd "sudo" = true) :
    executeCommandAction cmd = ExecAction.refuse "Error: sudo commands are not allowed"
    ∧ executeCommandAction "SUDO" = ExecAction.spawn (bashCmdLine "SUDO")
    ∧ executeCommandAction "ls && sudo rm -rf /"
        = ExecAction.refuse "Error: sudo commands are not allowed" := by
  refine ⟨?_, by decide, by decide⟩
  simp [executeCommandAction, h]

/-- Witness for claim C4 at the concrete command "sudo ls". -/
theorem claim_C4_sudo_filter_w :
    executeCommandAction "sudo ls" = ExecAction.refuse "Error: sudo commands are not allowed" :=
  (claim_C4_sudo_filter "sudo ls" (by decide)).1

/-! ## Claim C5 -/

/-- Counterexample to claim C5: at the concrete command "ls" the line
handed to popen is the single-quoted bash invocation produced by the
code, not the double-quoted line the claim describes. -/
theorem claim_C5_quoting_cex :
    executeCommandAction "ls" = ExecAction.spawn (bashCmdLine "ls")
    ∧ ¬ executeCommandAction "ls" = ExecAction.spawn (specShellLine "ls") :=
  ⟨rfl, by decide⟩

/-- Claim C5 as amended: the command text is spliced verbatim into a
single-quoted bash invocation with merged stdout and stderr; a
non-zero exit with no captured output yields the synthesized unknown
command message, any non-empty captured output is returned as-is, and
a zero exit with empty output yields the fixed non-empty
placeholder. -/
theorem claim_C5_executor_contract (cmd : String)
    (_hclass : classifyCommand cmd = Dispatch.exec)
    (hsudo : containsSub cmd "sudo" = false) :
    executeCommandAction cmd = ExecAction.spawn (bashCmdLine cmd)
    ∧ (∀ (status : Int) (output : String), ¬ status = 0 → output = "" →
        executeCommandResult cmd status output = "Error: Unknown command: " ++ cmd)
    ∧ (∀ (status : Int) (output : String), ¬ output = "" →
        executeCommandResult cmd status output = output)
    ∧ executeCommandResult cmd 0 "" = "Warn: Command executed but produced no output." := by
  refine ⟨?_, ?_, ?_, ?_⟩
  · simp [executeCommandAction, hsudo]
  · intro status output hs ho
    simp [executeCommandResult, hs, ho]
  · intro status output ho
    simp [executeCommandResult, ho]
  · simp [executeCommandResult]

/-- Witness for claim C5 at the concrete command "ls". -/
theorem claim_C5_executor_contract_w :
    executeCommandAction "ls" = ExecAction.spawn (bashCmdLine "ls")
    ∧ executeCommandResult "ls" 1 "" = "Error: Unknown command: ls" := by
  have h := claim_C5_executor_contract "ls" (by decide) (by decide)
  exact ⟨h.1, h.2.1 1 "" (by decide) rfl⟩

/-! ## Claim C7 -/

/-- Claim C7: the claim states that newline, carriage-return and
backspace characters are stripped from the received buffer before
dispatch.  Evaluated at the failing input — a received buffer with a
trailing newline — the receive loop of Server::handleClient passes
the raw buffer to processCommand unchanged: cleanedCommand is defined
in Server.cpp but never invoked, and the dispatched text differs from
the stripped text. -/
theorem claim_C7_raw_buffer_dispatched :
    handleClientStep "ls\n" = StepResult.dispatched "ls\n"
    ∧ cleanedCommand "ls\n" = "ls"
    ∧ ¬ ("ls\n" : String) = "ls" :=
  ⟨rfl, rfl, by decide⟩

/-! ## Claim C8 -/

/-- Claim C8: the claim states that the session registry entry is
removed when a connection terminates.  Evaluated at the failing input —
a registry holding sessions 4 and 5, session 4 terminating — the
teardown path of Server::handleClient leaves the registry unchanged
(Server.cpp contains no erase on clientPaths), so the entry of the
closed session persists. -/
theorem claim_C8_registry_entry_persists :
    handleClientTeardown [(4, ["a"]), (5, ["b"])] 4 = [(4, ["a"]), (5, ["b"])]
    ∧ regLookup (handleClientTeardown [(4, ["a"]), (5, ["b"])] 4) 4 = some ["a"] :=
  ⟨rfl, rfl⟩

/-! ## Claim C9 -/

/-- Claim C9: the claim states that every access to the shared
clientPaths registry is serialized by pathsMutex.  Evaluated against
the access sites of Server.cpp: the lookup in Server::processCommand
holds no lock, so not all sites are under the exclusion. -/
theorem claim_C9_unlocked_registry_access :
    registryAccessSites.all (fun s => s.underPathsMutex) = false
    ∧ registryAccessSites.get? 1
        = some ⟨"Server::processCommand", "lookup of clientPaths[clientSocket]", false⟩ :=
  ⟨rfl, rfl⟩

/-! ## Claim C10 -/

/-- Claim C10: on accept, Server::handleClient unconditionally
overwrites the registry entry of the new socket descriptor with the
process working directory, under pathsMutex, before any command is
processed; a lookup after that write returns the fresh directory
whatever the prior registry contained, so a reused descriptor never
observes the stale stored directory, and the first command prologue
reads exactly the fresh value. -/
theorem claim_C10_fresh_entry_on_accept :
    (∀ (r : List (Int × List String)) (fd : Int) (cwd : List String),
       regLookup (handleClientInit r fd cwd) fd = some cwd)
    ∧ (∀ (r : List (Int × List String)) (fd : Int) (cwd amb : List String),
       processCommandSetCwd ⟨handleClientInit r fd cwd, amb⟩ fd
         = some ⟨handleClientInit r fd cwd, cwd⟩)
    ∧ registryAccessSites.get? 2
        = some ⟨"Server::handleClient", "insert of the initial clientPaths[clientSocket] entry", true⟩ := by
  refine ⟨?_, ?_, rfl⟩
  · intro r fd cwd
    exact regLookup_regSet r fd cwd
  · intro r fd cwd amb
    simp [processCommandSetCwd, handleClientInit, regLookup_regSet]

/-! ## Claim C3 -/

/-- Counterexample to claim C3: the token starting with a tilde and a
separator is not covered by the rules the claim lists, and the code
does not join it onto the base — it expands the tilde to the home
directory.  With home /h and base /b, and both candidate directories
existing, the code yields /h/x while the rule of the claim for "any
other token" yields /b/~/x. -/
theorem claim_C3_tilde_cex :
    resolvePath fs3c (some "/h") [] ["b"] "~/x" = Except.ok ["h", "x"]
    ∧ specResolveOtherRule fs3c ["b"] "~/x" = Except.ok ["b", "~", "x"]
    ∧ ¬ (["h", "x"] : List String) = ["b", "~", "x"] :=
  ⟨rfl, rfl, by decide⟩

/-- Claim C3 as amended: the empty token and the bare tilde resolve to
the canonicalized home directory (HOME, falling back to the root when
unset) regardless of the base; dot resolves to the base and dot-dot to
its parent; a token starting with a tilde and a separator resolves to
the home directory joined with the remainder after those two
characters; an absolute token is used as-is; any other token is the
base joined with the token; the result is always the canonicalization
of the resolved pre-path, so a canonicalization failure propagates to
the caller unreplaced. -/
theorem claim_C3_resolve_rules (fs : FS) (home : Option String) (amb base : List String)
    (raw : String)
    (hbase : canonicalM fs base = Except.ok base)
    (hpar : canonicalM fs base.dropLast = Except.ok base.dropLast) :
    (∀ b : List String,
        resolvePath fs home amb b "" = canonicalPre fs amb (pathOfString (homeString home))
        ∧ resolvePath fs home amb b "~" = canonicalPre fs amb (pathOfString (homeString home)))
    ∧ resolvePath fs home amb base "." = Except.ok base
    ∧ resolvePath fs home amb base ".." = Except.ok base.dropLast
    ∧ (¬ raw = "" → ¬ raw = "~" → isTildeSlash raw = false → ¬ raw = "." → ¬ raw = ".." →
        startsSlash raw = true →
        resolvePath fs home amb base raw = canonicalM fs (splitComps raw))
    ∧ (∀ h : String, home = some h → ¬ raw = "" → ¬ raw = "~" → isTildeSlash raw = true →
        resolvePath fs home amb base raw
          = canonicalPre fs amb (joinP (pathOfString h) (strDrop raw 2)))
    ∧ (¬ raw = "" → ¬ raw = "~" → isTildeSlash raw = false → ¬ raw = "." → ¬ raw = ".." →
        startsSlash raw = false →
        resolvePath fs home amb base raw = canonicalM fs (base ++ splitComps raw))
    ∧ (∀ tok : String, resolvePath fs home amb base tok
        = canonicalPre fs amb (resolvePre home base tok)) := by
  refine ⟨?_, ?_, ?_, ?_, ?_, ?_, fun _ => rfl⟩
  · intro b
    exact ⟨rfl, rfl⟩
  · have e : resolvePath fs home amb base "." = canonicalM fs base := rfl
    rw [e, hbase]
  · have e : resolvePath fs home amb base ".." = canonicalM fs base.dropLast := rfl
    rw [e, hpar]
  · intro h1 h2 h3 h4 h5 h6
    simp [resolvePath, resolvePre, canonicalPre, pathOfString, h1, h2, h3, h4, h5, h6]
  · intro h hh h1 h2 h3
    subst hh
    simp [resolvePath, resolvePre, h1, h2, h3]
  · intro h1 h2 h3 h4 h5 h6
    simp [resolvePath, resolvePre, canonicalPre, h1, h2, h3, h4, h5, h6]

/-- Witness for claim C3 at home /h, base /b and the relative token
sub, on a filesystem where these exist. -/
theorem claim_C3_resolve_rules_w :
    resolvePath fs3w (some "/h") [] ["b"] "." = Except.ok ["b"]
    ∧ resolvePath fs3w (some "/h") [] ["b"] "sub" = canonicalM fs3w (["b"] ++ splitComps "sub")
    ∧ resolvePath fs3w (some "/h") [] ["b"] ""
        = canonicalPre fs3w [] (pathOfString (homeString (some "/h"))) := by
  have H := claim_C3_resolve_rules fs3w (some "/h") [] ["b"] "sub" (by rfl) (by rfl)
  refine ⟨H.2.1, ?_, (H.1 ["b"]).1⟩
  exact H.2.2.2.2.2.1 (by decide) (by decide) (by rfl) (by decide) (by decide) (by rfl)

/-! ## Claim C6 -/

theorem existsPath_createFile (fs : FS) (p : List String) :
    (fs.createFile p).existsPath p = true := by
  simp [FS.createFile, FS.existsPath]

theorem find?_none_of_existsPath_false (fs : FS) (p : List String)
    (h : fs.existsPath p = false) :
    fs.nodes.find? (fun n => n.comps == p) = none := by
  simp only [FS.existsPath, List.any_eq_false] at h
  simp only [List.find?_eq_none]
  exact h

theorem contentOf_createFile (fs : FS) (p : List String) (h : fs.existsPath p = false) :
    (fs.createFile p).contentOf p = "" := by
  have hf := find?_none_of_existsPath_false fs p h
  simp [FS.createFile, FS.contentOf, List.find?_append, hf]

/-- Claim C6: a nano command on a file that does not exist creates it
empty and returns the sentinel; an immediate second nano on the
now-existing empty file returns the sentinel again with the filesystem
unchanged; a nano on a file with content returns exactly that content;
the I/O failure branch returns a message containing "Error". -/
theorem claim_C6_nano_sentinel (fs : FS) (amb : List String) (cmd name : String)
    (p : List String)
    (hlen : 5 ≤ cmd.toList.length)
    (hname : strDrop cmd 5 = name)
    (hp : p = (joinP ⟨true, amb⟩ name).comps) :
    (fs.existsPath p = false →
       handleNanoCommand fs amb cmd = some (fs.createFile p, "NEW_FILE")
       ∧ (fs.createFile p).existsPath p = true
       ∧ (fs.createFile p).contentOf p = ""
       ∧ handleNanoCommand (fs.createFile p) amb cmd = some (fs.createFile p, "NEW_FILE"))
    ∧ (fs.existsPath p = true → ¬ fs.contentOf p = "" →
       handleNanoCommand fs amb cmd = some (fs, fs.contentOf p))
    ∧ containsSub nanoIOErrorResponse "Error" = true := by
  have hnl : ¬ (cmd.toList.length < 5) := Nat.not_lt.mpr hlen
  have key : ∀ g : FS, handleNanoCommand g amb cmd
      = (if g.existsPath p then
           some (g, if g.contentOf p = "" then "NEW_FILE" else g.contentOf p)
         else some (g.createFile p, "NEW_FILE")) := by
    intro g
    simp only [handleNanoCommand, if_neg hnl, hname, ← hp]
  refine ⟨?_, ?_, by decide⟩
  · intro hne
    refine ⟨?_, existsPath_createFile fs p, contentOf_createFile fs p hne, ?_⟩
    · rw [key fs, if_neg (by simp [hne])]
    · rw [key (fs.createFile p), if_pos (by simp [existsPath_createFile fs p]),
          contentOf_createFile fs p hne]
      simp
  · intro hex hcon
    rw [key fs, if_pos (by simp [hex]), if_neg hcon]

/-- Witness for claim C6: nano on a missing file f at the root of a
filesystem holding only the root directory, then once more on the
created empty file. -/
theorem claim_C6_nano_sentinel_w :
    handleNanoCommand fsRootOnly [] "nano f" = some (fsRootOnly.createFile ["f"], "NEW_FILE")
    ∧ handleNanoCommand (fsRootOnly.createFile ["f"]) [] "nano f"
        = some (fsRootOnly.createFile ["f"], "NEW_FILE") := by
  have h := (claim_C6_nano_sentinel fsRootOnly [] "nano f" "f" ["f"]
    (by decide) (by decide) (by decide)).1 (by decide)
  exact ⟨h.1, h.2.2.2⟩

end RemMux
